import Mathlib

/-!
Verification of the OCC i2c frame decoder (src/occ.c) against its
natural-language specification.

The decoder is embedded shallowly: the byte buffer `char *d` becomes a
`List Nat` of byte values; every `d[i]` read goes through `readByte`,
which yields the low 8 bits of the stored value (a C `char` holds one
byte) and faults with `PErr.oob` when the index is outside the buffer —
the C code has no length parameter and an out-of-range read is undefined
behaviour, which the embedding surfaces as this distinguished outcome.
Assignments into narrower C integer fields keep their truncations
(`% 256`, `% 65536`, `% 4294967296`).  `strncpy` into a NUL-padded field
followed by `strcmp` is modelled by `readCStr` / C-string contents.
-/

namespace OccI2c

/-- Hard fault of the embedded code: a read `d[i]` past the end of the
buffer (undefined behaviour in the C source, which never bounds-checks). -/
inductive PErr where
  | oob
deriving DecidableEq, Repr

/-- One `d[i]` access of the C code: the byte stored at index `i`, or an
out-of-bounds fault. A C `char` is one byte, so the value is reduced to
its low 8 bits. -/
def readByte (d : List Nat) (i : Nat) : Except PErr Nat :=
  match d.get? i with
  | some b => .ok (b % 256)
  | none => .error .oob

/-- Total projection of the byte at index `i` (equals the `readByte`
value whenever the read is in bounds). -/
def byteAt (d : List Nat) (i : Nat) : Nat :=
  ((d.get? i).getD 0) % 256

/-- Models `strncpy(dst, &d[off], n)` into a zeroed buffer: the bytes
copied before the terminator, i.e. the C-string content of `dst`.
`strncpy` stops reading at the first NUL byte. -/
def readCStr (d : List Nat) (off : Nat) : Nat → Except PErr (List Nat)
  | 0 => .ok []
  | n + 1 => do
    let b ← readByte d off
    if b = 0 then
      .ok []
    else do
      let rest ← readCStr d (off + 1) n
      .ok (b :: rest)

/-- Total counterpart of `readCStr` (equal to it when all reads are in
bounds). -/
def cstrAt (d : List Nat) (off : Nat) : Nat → List Nat
  | 0 => []
  | n + 1 =>
    let b := byteAt d off
    if b = 0 then [] else b :: cstrAt d (off + 1) n

/-- The two-statement big-endian 16-bit load of the C source
(`x = hi << 8; x = x | lo;` on a `uint16_t`). -/
def val16 (hi lo : Nat) : Nat :=
  (((hi <<< 8) % 65536) ||| lo) % 65536

/-- The four-statement big-endian 32-bit load of the C source
(successive `|`-assignments into a `uint32_t`). -/
def val32 (b0 b1 b2 b3 : Nat) : Nat :=
  (((((((b0 <<< 24) % 4294967296) ||| (b1 <<< 16)) % 4294967296) |||
      (b2 <<< 8)) % 4294967296) ||| b3) % 4294967296

/-- `occ_sensor` (src/occ.c:38): 16-bit id and 16-bit value. -/
structure OccSensor where
  sensor_id : Nat
  value : Nat
deriving DecidableEq, Repr

/-- `powr_sensor` (src/occ.c:43). -/
structure PowrSensor where
  sensor_id : Nat
  update_tag : Nat
  accumulator : Nat
  value : Nat
deriving DecidableEq, Repr

/-- `sensor_data_block` (src/occ.c:51). `sensor_type` holds the C-string
content of the strncpy-filled tag field; `sensor` and `powr` are the two
record-array pointers, `none` standing for NULL. -/
structure SensorDataBlock where
  sensor_type : List Nat
  reserved0 : Nat
  sensor_format : Nat
  sensor_length : Nat
  num_of_sensors : Nat
  sensor : Option (List OccSensor)
  powr : Option (List PowrSensor)
deriving DecidableEq, Repr

/-- `occ_poll_data` (src/occ.c:61); `blocks = none` is a NULL pointer. -/
structure OccPollData where
  status : Nat
  ext_status : Nat
  occs_present : Nat
  config : Nat
  occ_state : Nat
  reserved0 : Nat
  reserved1 : Nat
  error_log_id : Nat
  error_log_addr_start : Nat
  error_log_length : Nat
  reserved2 : Nat
  reserved3 : Nat
  occ_code_level : List Nat
  sensor_eye_catcher : List Nat
  num_of_sensor_blocks : Nat
  sensor_data_version : Nat
  blocks : Option (List SensorDataBlock)
deriving DecidableEq, Repr

/-- `occ_response_t` (src/occ.c:81). -/
structure OccResponseT where
  sequence_num : Nat
  cmd_type : Nat
  rtn_status : Nat
  data_length : Nat
  data : OccPollData
  chk_sum : Nat
  temp_block_id : Nat
  freq_block_id : Nat
  power_block_id : Nat
deriving DecidableEq, Repr

/-- The all-zero response value: the static `occ_resp` after zero
initialisation, and the result of `memset(p, 0, sizeof(*p))`. -/
def zeroPoll : OccPollData :=
  ⟨0, 0, 0, 0, 0, 0, 0, 0, 0, 0, 0, 0, [], [], 0, 0, none⟩

def zeroResponse : OccResponseT :=
  ⟨0, 0, 0, 0, zeroPoll, 0, 0, 0, 0⟩

/-- ASCII bytes of the tag "TEMP". -/
def tagTEMP : List Nat := [84, 69, 77, 80]

/-- ASCII bytes of the tag "FREQ". -/
def tagFREQ : List Nat := [70, 82, 69, 81]

/-- ASCII bytes of the tag "POWR". -/
def tagPOWR : List Nat := [80, 79, 87, 82]

/-- ASCII bytes of the frame marker "SENSOR". -/
def markerSENSOR : List Nat := [83, 69, 78, 83, 79, 82]

/-- One iteration body of the TEMP/FREQ record loops
(src/occ.c:348 and src/occ.c:370): four byte reads from the start of the
record window, assembled big-endian into the two 16-bit fields. -/
def parseValueSensor (d : List Nat) (p : Nat) : Except PErr OccSensor := do
  let b0 ← readByte d p
  let b1 ← readByte d (p + 1)
  let b2 ← readByte d (p + 2)
  let b3 ← readByte d (p + 3)
  .ok ⟨val16 b0 b1, val16 b2 b3⟩

/-- The TEMP/FREQ record loop: decodes `n` records starting at cursor `p`,
advancing the cursor by exactly the declared stride `k`
(`dnum = dnum + sensor_length`, src/occ.c:355) after each record.
Returns the records and the final cursor. -/
def parseValueSensors (d : List Nat) (p k : Nat) : Nat → Except PErr (List OccSensor × Nat)
  | 0 => .ok ([], p)
  | n + 1 => do
    let r ← parseValueSensor d p
    let (rest, q) ← parseValueSensors d (p + k) k n
    .ok (r :: rest, q)

/-- One iteration body of the POWR record loop (src/occ.c:390): twelve
byte reads from the start of the record window. -/
def parsePowrSensor (d : List Nat) (p : Nat) : Except PErr PowrSensor := do
  let b0 ← readByte d p
  let b1 ← readByte d (p + 1)
  let b2 ← readByte d (p + 2)
  let b3 ← readByte d (p + 3)
  let b4 ← readByte d (p + 4)
  let b5 ← readByte d (p + 5)
  let b6 ← readByte d (p + 6)
  let b7 ← readByte d (p + 7)
  let b8 ← readByte d (p + 8)
  let b9 ← readByte d (p + 9)
  let b10 ← readByte d (p + 10)
  let b11 ← readByte d (p + 11)
  .ok ⟨val16 b0 b1, val32 b2 b3 b4 b5, val32 b6 b7 b8 b9, val16 b10 b11⟩

/-- The POWR record loop. Besides the records and the final cursor it
returns the number of reads performed through the `sensor` pointer of the block
pointer: the per-record `printk` (src/occ.c:403) dereferences
`o->data.blocks[b].sensor[s]`, although only the `powr` array was
allocated for a POWR block and `sensor` is still NULL — the third
component counts one such null-pointer read per completed iteration. -/
def parsePowrSensors (d : List Nat) (p k : Nat) : Nat → Except PErr (List PowrSensor × Nat × Nat)
  | 0 => .ok ([], p, 0)
  | n + 1 => do
    let r ← parsePowrSensor d p
    let (rest, q, nr) ← parsePowrSensors d (p + k) k n
    .ok (r :: rest, q, nr + 1)

/-- Which branch of the per-block dispatch ran. -/
inductive TagClass where
  | freq
  | temp
  | powr
  | empty
  | unsupported
deriving DecidableEq, Repr

/-- Result of handling one sensor block inside the parse loop. `next` is
the cursor after the block; `nullReads` counts reads through the NULL
`sensor` pointer (POWR branch printk); `allocs` counts `kzalloc` calls. -/
structure BlockOut where
  blk : SensorDataBlock
  next : Nat
  cls : TagClass
  nullReads : Nat
  allocs : Nat
deriving DecidableEq, Repr

/-- One iteration of the block loop of `parse_occ_response`
(src/occ.c:319–416): reads the 8-byte descriptor at cursor `p`
(4-byte strncpy tag, then bytes at `p+4`..`p+7`), advances the cursor
by 8, and dispatches on emptiness and on the tag exactly as the C code
does (`num_of_sensors <= 0` / `sensor_length == 0` first, then strcmp
against "FREQ", "TEMP", "POWR" in that order; any other tag prints an
error and merely `continue`s — no body skip). -/
def parseOneBlock (d : List Nat) (p : Nat) : Except PErr BlockOut := do
  let ty ← readCStr d p 4
  let r0 ← readByte d (p + 4)
  let fmt ← readByte d (p + 5)
  let len ← readByte d (p + 6)
  let num ← readByte d (p + 7)
  let q := p + 8
  if num = 0 then
    .ok ⟨⟨ty, r0, fmt, len, num, none, none⟩, q, .empty, 0, 0⟩
  else if len = 0 then
    .ok ⟨⟨ty, r0, fmt, len, num, none, none⟩, q, .empty, 0, 0⟩
  else if ty = tagFREQ then do
    let (recs, q2) ← parseValueSensors d q len num
    .ok ⟨⟨ty, r0, fmt, len, num, some recs, none⟩, q2, .freq, 0, 1⟩
  else if ty = tagTEMP then do
    let (recs, q2) ← parseValueSensors d q len num
    .ok ⟨⟨ty, r0, fmt, len, num, some recs, none⟩, q2, .temp, 0, 1⟩
  else if ty = tagPOWR then do
    let (recs, q2, nr) ← parsePowrSensors d q len num
    .ok ⟨⟨ty, r0, fmt, len, num, none, some recs⟩, q2, .powr, nr, 1⟩
  else
    .ok ⟨⟨ty, r0, fmt, len, num, none, none⟩, q, .unsupported, 0, 0⟩

/-- State threaded through the block loop: cursor `dnum`, block index
`b`, the three last-write-wins block-id fields of `occ_response_t`, the
accumulated null-pointer-read and allocation counts, and the blocks
filled in so far. -/
structure LoopSt where
  dnum : Nat
  b : Nat
  temp_block_id : Nat
  freq_block_id : Nat
  power_block_id : Nat
  nullReads : Nat
  allocs : Nat
  blks : List SensorDataBlock
deriving DecidableEq, Repr

/-- The block loop: `n` remaining iterations of the `for (b = ...)` loop
of `parse_occ_response`. The branch that ran decides which block-id
field is overwritten with the current index (stored into a `uint16_t`). -/
def parseBlocksLoop (d : List Nat) : Nat → LoopSt → Except PErr LoopSt
  | 0, st => .ok st
  | n + 1, st => do
    let out ← parseOneBlock d st.dnum
    parseBlocksLoop d n
      ⟨out.next, st.b + 1,
       if out.cls = .temp then st.b % 65536 else st.temp_block_id,
       if out.cls = .freq then st.b % 65536 else st.freq_block_id,
       if out.cls = .powr then st.b % 65536 else st.power_block_id,
       st.nullReads + out.nullReads,
       st.allocs + out.allocs,
       st.blks ++ [out.blk]⟩

/-- The distinct `printk`-reported failure paths of `parse_occ_response`
that return -1: "SENSOR not found at byte 37" and "SENSOR block num is 0". -/
inductive CErr where
  | sensorNotFound
  | blockNumZero
deriving DecidableEq, Repr

/-- Outcome of a `parse_occ_response` call that did not fault: the C
return value, which error printk (if any) fired, the final contents of
the `*o` of the caller, the number of reads through a NULL `sensor` pointer,
and the number of `kzalloc` calls made. -/
structure ParseResult where
  ret : Int
  err : Option CErr
  o : OccResponseT
  nullReads : Nat
  allocs : Nat
deriving DecidableEq, Repr

/-- `parse_occ_response` (src/occ.c:270): writes every fixed-header field
of `*o` from its literal byte offset (lines 277–302), then checks the
frame marker and the block count, then runs the block loop from byte 45.
All mutations of the struct supplied by the caller are reflected in the returned `o`;
note that the header writes happen before either validity check, exactly
as in the source. -/
def parse_occ_response (d : List Nat) (o0 : OccResponseT) : Except PErr ParseResult := do
  let b0 ← readByte d 0
  let b1 ← readByte d 1
  let b2 ← readByte d 2
  let b3 ← readByte d 3
  let b4 ← readByte d 4
  let b5 ← readByte d 5
  let b6 ← readByte d 6
  let b7 ← readByte d 7
  let b8 ← readByte d 8
  let b9 ← readByte d 9
  let b10 ← readByte d 10
  let b11 ← readByte d 11
  let b12 ← readByte d 12
  let b13 ← readByte d 13
  let b14 ← readByte d 14
  let b15 ← readByte d 15
  let b16 ← readByte d 16
  let b17 ← readByte d 17
  let b18 ← readByte d 18
  let b19 ← readByte d 19
  let b20 ← readByte d 20
  let codeLevel ← readCStr d 21 16
  let eye ← readCStr d 37 6
  let b43 ← readByte d 43
  let b44 ← readByte d 44
  let o1 : OccResponseT :=
    { o0 with
      sequence_num := b0
      cmd_type := b1
      rtn_status := b2
      data_length := val16 b3 b4
      data :=
        { o0.data with
          status := b5
          ext_status := b6
          occs_present := b7
          config := b8
          occ_state := b9
          reserved0 := b10
          reserved1 := b11
          error_log_id := b12
          error_log_addr_start := val32 b13 b14 b15 b16
          error_log_length := val16 b17 b18
          reserved2 := b19
          reserved3 := b20
          occ_code_level := codeLevel
          sensor_eye_catcher := eye
          num_of_sensor_blocks := b43
          sensor_data_version := b44 } }
  if eye ≠ markerSENSOR then
    .ok ⟨-1, some .sensorNotFound, o1, 0, 0⟩
  else if b43 = 0 then
    .ok ⟨-1, some .blockNumZero, o1, 0, 0⟩
  else do
    let st ← parseBlocksLoop d b43
      ⟨45, 0, o1.temp_block_id, o1.freq_block_id, o1.power_block_id, 0, 0, []⟩
    let o2 : OccResponseT :=
      { o1 with
        temp_block_id := st.temp_block_id
        freq_block_id := st.freq_block_id
        power_block_id := st.power_block_id
        data := { o1.data with blocks := some st.blks } }
    .ok ⟨0, none, o2, st.nullReads, 1 + st.allocs⟩

/-- `get_occdata_length` (src/occ.c:260): the declared data length,
assembled big-endian from bytes 3 and 4 into a `uint16_t`. -/
def get_occdata_length (d : List Nat) : Except PErr Nat := do
  let b3 ← readByte d 3
  let b4 ← readByte d 4
  .ok (val16 b3 b4)

/-- Outcome of the decode entry point `occ_get_all`: either the frame was
rejected for exceeding the 4096-byte cap before any block was parsed, or
`parse_occ_response` ran. -/
inductive GetAllOut where
  | lengthTooBig
  | parsed (r : ParseResult)
deriving DecidableEq, Repr

/-- The decode portion of `occ_get_all` (src/occ.c:437), modelled over
the contents of the `occ_data` buffer at the point of the length check
(the SRAM fetch and the FIXME fake-data substitution that fill that
buffer are transport glue outside the decoder): reject with -1 when the
declared length exceeds `OCC_DATA_MAX` (4096), otherwise parse. -/
def occ_get_all (d : List Nat) (o0 : OccResponseT) : Except PErr GetAllOut := do
  let num_bytes ← get_occdata_length d
  if 4096 < num_bytes then
    .ok .lengthTooBig
  else do
    let r ← parse_occ_response d o0
    .ok (.parsed r)

/-- Result of `deinit_occ_resp_buf`: the state of `*p` afterwards,
whether the `blocks` array was freed, and, per block, whether `kfree`
was invoked on its `sensor` / `powr` pointer. -/
structure DeinitOut where
  o : OccResponseT
  blocksFreed : Bool
  sensorKfreeCalled : List Bool
  powrKfreeCalled : List Bool
deriving DecidableEq, Repr

/-- `deinit_occ_resp_buf` (src/occ.c:123). Transcribed as written: the
loop guards each `kfree` with `if (!p->data.blocks[b].sensor)` — i.e. the
`kfree` runs only when the pointer is already NULL (a no-op), and an
allocated array is never passed to `kfree`. When `blocks` is NULL the
function returns before the `memset`. -/
def deinit_occ_resp_buf (p : OccResponseT) : DeinitOut :=
  match p.data.blocks with
  | none => ⟨p, false, [], []⟩
  | some blks =>
      ⟨zeroResponse, true,
       (blks.take p.data.num_of_sensor_blocks).map (fun b => b.sensor.isNone),
       (blks.take p.data.num_of_sensor_blocks).map (fun b => b.powr.isNone)⟩

/-- The memory access `&o->data.blocks[o->temp_block_id].sensor[n-1]`
performed (with no NULL or range check) by both `show_occ_temp`
(src/occ.c:619) and `show_occ_temp_label` (src/occ.c:645) for the
1-based sysfs attribute index `n`. A `none` result means the C code
dereferences a NULL pointer or reads outside an array — an invalid
access, not a gracefully empty answer. -/
def show_occ_temp_access (o : OccResponseT) (n : Nat) : Option OccSensor := do
  let blks ← o.data.blocks
  let blk ← blks.get? o.temp_block_id
  let arr ← blk.sensor
  arr.get? (n - 1)

/-- The hardcoded sample frame `fake_occ_rsp` (src/occ.c:424): the
171-byte initializer, zero-filled to the 4096-byte array size. -/
def fake_occ_rsp : List Nat :=
  [0x69, 0x00, 0x00, 0x00, 0xa4, 0xc3, 0x00, 0x03, 0x00, 0x01, 0x00, 0x00, 0x00, 0x00, 0x00, 0x00,
   0x00, 0x00, 0x00, 0x00, 0x00, 0x6f, 0x70, 0x5f, 0x6f, 0x63, 0x63, 0x5f, 0x31, 0x35, 0x30, 0x37,
   0x31, 0x36, 0x61, 0x00, 0x00, 0x53, 0x45, 0x4e, 0x53, 0x4f, 0x52, 0x04, 0x01, 0x54, 0x45, 0x4d,
   0x50, 0x00, 0x01, 0x04, 0x0a, 0x00, 0x6a, 0x00, 0x00, 0x00, 0x6c, 0x00, 0x00, 0x00, 0x6d, 0x00,
   0x00, 0x00, 0x6e, 0x00, 0x00, 0x00, 0x6f, 0x00, 0x00, 0x00, 0x70, 0x00, 0x00, 0x00, 0x71, 0x00,
   0x00, 0x00, 0x73, 0x00, 0x00, 0x00, 0x74, 0x00, 0x00, 0x00, 0x75, 0x00, 0x00, 0x46, 0x52, 0x45,
   0x51, 0x00, 0x01, 0x04, 0x0a, 0x00, 0x76, 0x00, 0x00, 0x00, 0x78, 0x00, 0x00, 0x00, 0x79, 0x00,
   0x00, 0x00, 0x7a, 0x00, 0x00, 0x00, 0x7b, 0x00, 0x00, 0x00, 0x7c, 0x00, 0x00, 0x00, 0x7d, 0x00,
   0x00, 0x00, 0x7f, 0x00, 0x00, 0x00, 0x80, 0x00, 0x00, 0x00, 0x81, 0x00, 0x00, 0x50, 0x4f, 0x57,
   0x52, 0x00, 0x01, 0x0c, 0x00, 0x43, 0x41, 0x50, 0x53, 0x00, 0x01, 0x0c, 0x01, 0x00, 0x00, 0x00,
   0x00, 0x04, 0xb0, 0x09, 0x60, 0x04, 0x4c, 0x00, 0x00, 0x17, 0xc5] ++
  List.replicate 3925 0

/-- A minimal valid 45-byte fixed header: zero everywhere except the
"SENSOR" marker at offset 37 and the given block count at offset 43. -/
def header45 (nblocks : Nat) : List Nat :=
  List.replicate 37 0 ++ markerSENSOR ++ [nblocks, 0]

/-- `parse_occ_response` applied to the sample frame and the zeroed
static response buffer. -/
def fakeParse : Except PErr ParseResult :=
  parse_occ_response fake_occ_rsp zeroResponse

/-- Block `i` of a parse result, through the `blocks` pointer. -/
def blockOf (r : ParseResult) (i : Nat) : Option SensorDataBlock :=
  r.o.data.blocks.bind (fun l => l.get? i)

/-- Big-endian 16-bit integer formed from the bytes at `i` and `i + 1`
(the spec-level reading of a 2-byte field). -/
def be16At (d : List Nat) (i : Nat) : Nat := 256 * byteAt d i + byteAt d (i + 1)

/-- Big-endian 32-bit integer formed from the four bytes starting at `i`. -/
def be32At (d : List Nat) (i : Nat) : Nat :=
  16777216 * byteAt d i + 65536 * byteAt d (i + 1) + 256 * byteAt d (i + 2) + byteAt d (i + 3)

deriving instance DecidableEq for Except

/-- A 44-byte buffer: one byte short of the fixed header. -/
def c1Short44 : List Nat := List.replicate 44 0

/-- A valid header announcing one block, cut one byte into the 8-byte
block descriptor (the declared TEMP descriptor is missing its count byte). -/
def c1CutDescriptor : List Nat := header45 1 ++ [84, 69, 77, 80, 0, 1, 4]

/-- A valid header and a complete TEMP descriptor declaring one record of
stride 4, followed by only 3 record bytes. -/
def c1CutRecord : List Nat := header45 1 ++ [84, 69, 77, 80, 0, 1, 4, 1] ++ [0, 42, 0]

/-- A frame with two declared blocks: an unrecognized FOOX block with one
record of stride 4 (body bytes 9, 9, 9, 9 at offsets 53..56), then a
valid TEMP block with one record, whose descriptor starts at offset 57. -/
def c3Frame : List Nat :=
  header45 2 ++ [70, 79, 79, 88, 0, 1, 4, 1] ++ [9, 9, 9, 9] ++
  [84, 69, 77, 80, 0, 1, 4, 1] ++ [0, 42, 0, 7]

/-- The sample frame with its marker corrupted: byte 37 changed from
0x53 to 0x58, so the marker field reads "XENSOR". -/
def fakeBadMarker : List Nat := fake_occ_rsp.set 37 0x58

/-- A valid frame whose single TEMP block holds exactly one record
(sensor id 42, value 7). -/
def c6Frame : List Nat := header45 1 ++ [84, 69, 77, 80, 0, 1, 4, 1] ++ [0, 42, 0, 7]

/-- A standalone TEMP block image: descriptor (stride 4, two records)
followed by the two records. -/
def c2TempBuf : List Nat := [84, 69, 77, 80, 0, 1, 4, 2, 0, 42, 0, 7, 0, 43, 0, 9]

/-- The per-block parse output on `c2TempBuf` at offset 0. -/
def c2TempOut : BlockOut :=
  ⟨⟨[84, 69, 77, 80], 0, 1, 4, 2, some [⟨42, 7⟩, ⟨43, 9⟩], none⟩, 16, .temp, 0, 1⟩

/-- A standalone POWR block image: descriptor (stride 12, one record)
followed by the 12-byte record. -/
def c5PowrBuf : List Nat :=
  [80, 79, 87, 82, 0, 1, 12, 1, 0, 1, 0, 0, 0, 2, 0, 0, 0, 3, 0, 4]

/-- The per-block parse output on `c5PowrBuf` at offset 0. -/
def c5PowrOut : BlockOut :=
  ⟨⟨[80, 79, 87, 82], 0, 1, 12, 1, none, some [⟨1, 2, 3, 4⟩]⟩, 20, .powr, 1, 1⟩

/-- Three declared blocks: a populated TEMP block, an empty TEMP block
(record count 0) whose descriptor starts at offset 57, and a second
populated TEMP block at offset 65. -/
def c8Frame : List Nat :=
  header45 3 ++ [84, 69, 77, 80, 0, 1, 4, 1] ++ [0, 42, 0, 7] ++
  [84, 69, 77, 80, 0, 1, 4, 0] ++ [84, 69, 77, 80, 0, 1, 4, 1] ++ [0, 43, 0, 9]

/-- Loop state after the first block of `c8Frame`: cursor 57, block
index 1, one allocation, the first TEMP block already recorded. -/
def c8St : LoopSt := ⟨57, 1, 0, 0, 0, 0, 1, [⟨[84, 69, 77, 80], 0, 1, 4, 1, some [⟨42, 7⟩], none⟩]⟩

/-- A buffer declaring data length 0xffff = 65535 in bytes 3 and 4. -/
def c9Buf : List Nat := [0, 0, 0, 255, 255]

/-! Helper lemmas. -/

/-- Bitwise or of a multiple of `2 ^ k` with a value below `2 ^ k` is
their sum (the big-endian assemblies of the C code are plain sums). -/
lemma mul_two_pow_lor_eq_add : ∀ (k a b : Nat), b < 2 ^ k → ((a * 2 ^ k) ||| b) = a * 2 ^ k + b := by
  intro k
  induction k with
  | zero =>
    intro a b hb
    interval_cases b
    simp
  | succ k ih =>
    intro a b hb
    have hdecomp : Nat.bit (Nat.bodd b) (Nat.div2 b) = b := Nat.bit_decomp b
    have hdiv : Nat.div2 b < 2 ^ k := by
      rw [Nat.div2_val]
      rw [pow_succ] at hb
      omega
    have h2 : a * 2 ^ (k + 1) = Nat.bit false (a * 2 ^ k) := by
      rw [Nat.bit_val]
      rw [pow_succ]
      ring_nf
      simp
    rw [h2, ← hdecomp, Nat.lor_bit]
    rw [ih a (Nat.div2 b) hdiv]
    rw [Nat.bit_val, Nat.bit_val, Nat.bit_val]
    cases hB : Nat.bodd b <;> simp <;> ring

lemma lor_eq_add (k : Nat) {a b : Nat} (hd : 2 ^ k ∣ a) (hb : b < 2 ^ k) :
    a ||| b = a + b := by
  obtain ⟨c, hc⟩ := hd
  subst hc
  rw [mul_comm]
  exact mul_two_pow_lor_eq_add k c b hb

lemma byteAt_lt (d : List Nat) (i : Nat) : byteAt d i < 256 := by
  unfold byteAt
  omega

/-- On byte values the two-statement 16-bit load is the big-endian sum. -/
lemma val16_eq_be {a b : Nat} (ha : a < 256) (hb : b < 256) :
    val16 a b = 256 * a + b := by
  unfold val16
  rw [Nat.shiftLeft_eq]
  rw [Nat.mod_eq_of_lt (show a * 2 ^ 8 < 65536 by omega)]
  rw [lor_eq_add 8 ⟨a, by ring⟩ (show b < 2 ^ 8 by omega)]
  rw [Nat.mod_eq_of_lt (by omega)]
  omega

/-- On byte values the four-statement 32-bit load is the big-endian sum. -/
lemma val32_eq_be {a b c e : Nat} (ha : a < 256) (hb : b < 256) (hc : c < 256) (he : e < 256) :
    val32 a b c e = 16777216 * a + 65536 * b + 256 * c + e := by
  unfold val32
  rw [Nat.shiftLeft_eq, Nat.shiftLeft_eq, Nat.shiftLeft_eq]
  rw [Nat.mod_eq_of_lt (show a * 2 ^ 24 < 4294967296 by omega)]
  rw [lor_eq_add 24 ⟨a, by ring⟩ (show b * 2 ^ 16 < 2 ^ 24 by omega)]
  rw [Nat.mod_eq_of_lt (show a * 2 ^ 24 + b * 2 ^ 16 < 4294967296 by omega)]
  rw [lor_eq_add 16 ⟨a * 2 ^ 8 + b, by ring⟩ (show c * 2 ^ 8 < 2 ^ 16 by omega)]
  rw [Nat.mod_eq_of_lt (show a * 2 ^ 24 + b * 2 ^ 16 + c * 2 ^ 8 < 4294967296 by omega)]
  rw [lor_eq_add 8 ⟨a * 2 ^ 16 + b * 2 ^ 8 + c, by ring⟩ (show e < 2 ^ 8 by omega)]
  rw [Nat.mod_eq_of_lt (by omega)]
  omega

lemma readByte_ok {d : List Nat} {i : Nat} (h : i < d.length) :
    readByte d i = .ok (byteAt d i) := by
  unfold readByte byteAt
  cases e : d.get? i with
  | none =>
    rw [List.get?_eq_none] at e
    omega
  | some b => rfl

lemma readByte_ok_val {d : List Nat} {i b : Nat} (h : readByte d i = .ok b) :
    b = byteAt d i := by
  unfold readByte at h
  unfold byteAt
  cases e : d.get? i with
  | none => rw [e] at h; cases h
  | some v => rw [e] at h; cases h; rfl

lemma readCStr_ok_of_le {d : List Nat} : ∀ {n off : Nat}, off + n ≤ d.length →
    readCStr d off n = .ok (cstrAt d off n) := by
  intro n
  induction n with
  | zero => intro off h; rfl
  | succ n ih =>
    intro off h
    unfold readCStr cstrAt
    rw [readByte_ok (by omega)]
    simp only [bind, Except.bind]
    by_cases hb : byteAt d off = 0
    · rw [if_pos hb, if_pos hb]
    · rw [if_neg hb, if_neg hb, ih (by omega)]

lemma okBind {α β : Type} (a : α) (f : α → Except PErr β) :
    (Except.ok a >>= f : Except PErr β) = f a := rfl

lemma exBind_ok {α β : Type} {x : Except PErr α} {f : α → Except PErr β} {b : β}
    (h : (x >>= f) = .ok b) : ∃ a, x = .ok a ∧ f a = .ok b := by
  cases x with
  | error e => simp [Bind.bind, Except.bind] at h
  | ok a =>
    refine ⟨a, rfl, ?_⟩
    simpa [Bind.bind, Except.bind] using h

lemma cstrAt_succ (d : List Nat) (off n : Nat) :
    cstrAt d off (n + 1) =
      if byteAt d off = 0 then [] else byteAt d off :: cstrAt d (off + 1) n := rfl

/-- Unfolding of one iteration of the block loop. -/
lemma parseBlocksLoop_succ (d : List Nat) (n : Nat) (st : LoopSt) :
    parseBlocksLoop d (n + 1) st =
      (parseOneBlock d st.dnum) >>= (fun out => parseBlocksLoop d n
        ⟨out.next, st.b + 1,
         if out.cls = .temp then st.b % 65536 else st.temp_block_id,
         if out.cls = .freq then st.b % 65536 else st.freq_block_id,
         if out.cls = .powr then st.b % 65536 else st.power_block_id,
         st.nullReads + out.nullReads,
         st.allocs + out.allocs,
         st.blks ++ [out.blk]⟩) := rfl

/-- The strncpy-and-strcmp marker test succeeds exactly when the six raw
bytes at offset 37 spell "SENSOR". -/
lemma cstrAt_marker_iff (d : List Nat) :
    cstrAt d 37 6 = markerSENSOR ↔
      [byteAt d 37, byteAt d 38, byteAt d 39, byteAt d 40, byteAt d 41, byteAt d 42] =
        markerSENSOR := by
  unfold markerSENSOR
  rw [show (6 : Nat) = 5 + 1 from rfl, cstrAt_succ,
      show (5 : Nat) = 4 + 1 from rfl, cstrAt_succ,
      show (4 : Nat) = 3 + 1 from rfl, cstrAt_succ,
      show (3 : Nat) = 2 + 1 from rfl, cstrAt_succ,
      show (2 : Nat) = 1 + 1 from rfl, cstrAt_succ,
      show (1 : Nat) = 0 + 1 from rfl, cstrAt_succ]
  norm_num
  constructor
  · intro h
    split_ifs at h <;> simp_all
  · intro h
    obtain ⟨h1, h2, h3, h4, h5, h6⟩ := h
    simp [h1, h2, h3, h4, h5, h6, cstrAt]

lemma val16_byteAt (d : List Nat) (i : Nat) :
    val16 (byteAt d i) (byteAt d (i + 1)) = be16At d i := by
  unfold be16At
  exact val16_eq_be (byteAt_lt d i) (byteAt_lt d (i + 1))

lemma val32_byteAt (d : List Nat) (i : Nat) :
    val32 (byteAt d i) (byteAt d (i + 1)) (byteAt d (i + 2)) (byteAt d (i + 3)) = be32At d i := by
  unfold be32At
  exact val32_eq_be (byteAt_lt d i) (byteAt_lt d (i + 1)) (byteAt_lt d (i + 2)) (byteAt_lt d (i + 3))

lemma parseValueSensor_ok {d : List Nat} {p : Nat} {r : OccSensor}
    (h : parseValueSensor d p = .ok r) :
    r = ⟨val16 (byteAt d p) (byteAt d (p + 1)),
         val16 (byteAt d (p + 2)) (byteAt d (p + 3))⟩ := by
  unfold parseValueSensor at h
  obtain ⟨b0, e0, h⟩ := exBind_ok h
  obtain ⟨b1, e1, h⟩ := exBind_ok h
  obtain ⟨b2, e2, h⟩ := exBind_ok h
  obtain ⟨b3, e3, h⟩ := exBind_ok h
  cases h
  rw [readByte_ok_val e0, readByte_ok_val e1, readByte_ok_val e2, readByte_ok_val e3]

/-- Characterization of a successful TEMP/FREQ record loop: the final
cursor is the start plus count times stride, and record `s` is assembled
from the four bytes at the start of window `s`. -/
lemma parseValueSensors_ok {d : List Nat} {k : Nat} :
    ∀ {n p : Nat} {recs : List OccSensor} {q : Nat},
      parseValueSensors d p k n = .ok (recs, q) →
      q = p + n * k ∧ recs.length = n ∧
      ∀ s, s < n → recs.get? s =
        some ⟨val16 (byteAt d (p + s * k)) (byteAt d (p + s * k + 1)),
              val16 (byteAt d (p + s * k + 2)) (byteAt d (p + s * k + 3))⟩ := by
  intro n
  induction n with
  | zero =>
    intro p recs q h
    unfold parseValueSensors at h
    cases h
    exact ⟨by omega, rfl, by omega⟩
  | succ n ih =>
    intro p recs q h
    unfold parseValueSensors at h
    obtain ⟨r, e0, h⟩ := exBind_ok h
    obtain ⟨pr, e1, h⟩ := exBind_ok h
    obtain ⟨rest, q0⟩ := pr
    cases h
    obtain ⟨hq, hlen, hget⟩ := ih e1
    refine ⟨by rw [hq]; ring, by simp [hlen], ?_⟩
    intro s hs
    cases s with
    | zero =>
      simpa using parseValueSensor_ok e0
    | succ s =>
      have := hget s (by omega)
      simp only [List.get?]
      rw [this]
      have harith : p + k + s * k = p + (s + 1) * k := by ring
      rw [harith]

lemma parsePowrSensor_ok {d : List Nat} {p : Nat} {r : PowrSensor}
    (h : parsePowrSensor d p = .ok r) :
    r = ⟨val16 (byteAt d p) (byteAt d (p + 1)),
         val32 (byteAt d (p + 2)) (byteAt d (p + 3)) (byteAt d (p + 4)) (byteAt d (p + 5)),
         val32 (byteAt d (p + 6)) (byteAt d (p + 7)) (byteAt d (p + 8)) (byteAt d (p + 9)),
         val16 (byteAt d (p + 10)) (byteAt d (p + 11))⟩ := by
  unfold parsePowrSensor at h
  obtain ⟨b0, e0, h⟩ := exBind_ok h
  obtain ⟨b1, e1, h⟩ := exBind_ok h
  obtain ⟨b2, e2, h⟩ := exBind_ok h
  obtain ⟨b3, e3, h⟩ := exBind_ok h
  obtain ⟨b4, e4, h⟩ := exBind_ok h
  obtain ⟨b5, e5, h⟩ := exBind_ok h
  obtain ⟨b6, e6, h⟩ := exBind_ok h
  obtain ⟨b7, e7, h⟩ := exBind_ok h
  obtain ⟨b8, e8, h⟩ := exBind_ok h
  obtain ⟨b9, e9, h⟩ := exBind_ok h
  obtain ⟨b10, e10, h⟩ := exBind_ok h
  obtain ⟨b11, e11, h⟩ := exBind_ok h
  cases h
  rw [readByte_ok_val e0, readByte_ok_val e1, readByte_ok_val e2, readByte_ok_val e3,
      readByte_ok_val e4, readByte_ok_val e5, readByte_ok_val e6, readByte_ok_val e7,
      readByte_ok_val e8, readByte_ok_val e9, readByte_ok_val e10, readByte_ok_val e11]

/-- Characterization of a successful POWR record loop; the third result
component (reads through the NULL `sensor` pointer) equals the record
count. -/
lemma parsePowrSensors_ok {d : List Nat} {k : Nat} :
    ∀ {n p : Nat} {recs : List PowrSensor} {q nr : Nat},
      parsePowrSensors d p k n = .ok (recs, q, nr) →
      q = p + n * k ∧ recs.length = n ∧ nr = n ∧
      ∀ s, s < n → recs.get? s =
        some ⟨val16 (byteAt d (p + s * k)) (byteAt d (p + s * k + 1)),
              val32 (byteAt d (p + s * k + 2)) (byteAt d (p + s * k + 3))
                    (byteAt d (p + s * k + 4)) (byteAt d (p + s * k + 5)),
              val32 (byteAt d (p + s * k + 6)) (byteAt d (p + s * k + 7))
                    (byteAt d (p + s * k + 8)) (byteAt d (p + s * k + 9)),
              val16 (byteAt d (p + s * k + 10)) (byteAt d (p + s * k + 11))⟩ := by
  intro n
  induction n with
  | zero =>
    intro p recs q nr h
    unfold parsePowrSensors at h
    cases h
    exact ⟨by omega, rfl, rfl, by omega⟩
  | succ n ih =>
    intro p recs q nr h
    unfold parsePowrSensors at h
    obtain ⟨r, e0, h⟩ := exBind_ok h
    obtain ⟨pr, e1, h⟩ := exBind_ok h
    obtain ⟨rest, q0, nr0⟩ := pr
    cases h
    obtain ⟨hq, hlen, hnr, hget⟩ := ih e1
    refine ⟨by rw [hq]; ring, by simp [hlen], by omega, ?_⟩
    intro s hs
    cases s with
    | zero =>
      simpa using parsePowrSensor_ok e0
    | succ s =>
      have := hget s (by omega)
      simp only [List.get?]
      rw [this]
      have harith : p + k + s * k = p + (s + 1) * k := by ring
      rw [harith]

/-- Full case analysis of a successful per-block parse: the five reads of
the 8-byte descriptor, then exactly one of the five dispatch branches. -/
lemma parseOneBlock_inv {d : List Nat} {p : Nat} {out : BlockOut}
    (h : parseOneBlock d p = .ok out) :
    ∃ ty r0 fmt len num,
      readCStr d p 4 = .ok ty ∧ readByte d (p + 4) = .ok r0 ∧
      readByte d (p + 5) = .ok fmt ∧ readByte d (p + 6) = .ok len ∧
      readByte d (p + 7) = .ok num ∧
      ((num = 0 ∨ len = 0) ∧
         out = ⟨⟨ty, r0, fmt, len, num, none, none⟩, p + 8, .empty, 0, 0⟩ ∨
       (num ≠ 0 ∧ len ≠ 0 ∧ ty = tagFREQ ∧
         ∃ recs q2, parseValueSensors d (p + 8) len num = .ok (recs, q2) ∧
           out = ⟨⟨ty, r0, fmt, len, num, some recs, none⟩, q2, .freq, 0, 1⟩) ∨
       (num ≠ 0 ∧ len ≠ 0 ∧ ty ≠ tagFREQ ∧ ty = tagTEMP ∧
         ∃ recs q2, parseValueSensors d (p + 8) len num = .ok (recs, q2) ∧
           out = ⟨⟨ty, r0, fmt, len, num, some recs, none⟩, q2, .temp, 0, 1⟩) ∨
       (num ≠ 0 ∧ len ≠ 0 ∧ ty ≠ tagFREQ ∧ ty ≠ tagTEMP ∧ ty = tagPOWR ∧
         ∃ recs q2 nr, parsePowrSensors d (p + 8) len num = .ok (recs, q2, nr) ∧
           out = ⟨⟨ty, r0, fmt, len, num, none, some recs⟩, q2, .powr, nr, 1⟩) ∨
       (num ≠ 0 ∧ len ≠ 0 ∧ ty ≠ tagFREQ ∧ ty ≠ tagTEMP ∧ ty ≠ tagPOWR ∧
         out = ⟨⟨ty, r0, fmt, len, num, none, none⟩, p + 8, .unsupported, 0, 0⟩)) := by
  unfold parseOneBlock at h
  obtain ⟨ty, e0, h⟩ := exBind_ok h
  obtain ⟨r0, e1, h⟩ := exBind_ok h
  obtain ⟨fmt, e2, h⟩ := exBind_ok h
  obtain ⟨len, e3, h⟩ := exBind_ok h
  obtain ⟨num, e4, h⟩ := exBind_ok h
  refine ⟨ty, r0, fmt, len, num, e0, e1, e2, e3, e4, ?_⟩
  by_cases hnum : num = 0
  · rw [if_pos hnum] at h
    cases h
    exact Or.inl ⟨Or.inl hnum, rfl⟩
  · rw [if_neg hnum] at h
    by_cases hlen : len = 0
    · rw [if_pos hlen] at h
      cases h
      exact Or.inl ⟨Or.inr hlen, rfl⟩
    · rw [if_neg hlen] at h
      by_cases hfreq : ty = tagFREQ
      · rw [if_pos hfreq] at h
        obtain ⟨pr, eL, h⟩ := exBind_ok h
        obtain ⟨recs, q2⟩ := pr
        cases h
        exact Or.inr (Or.inl ⟨hnum, hlen, hfreq, recs, q2, eL, rfl⟩)
      · rw [if_neg hfreq] at h
        by_cases htemp : ty = tagTEMP
        · rw [if_pos htemp] at h
          obtain ⟨pr, eL, h⟩ := exBind_ok h
          obtain ⟨recs, q2⟩ := pr
          cases h
          exact Or.inr (Or.inr (Or.inl ⟨hnum, hlen, hfreq, htemp, recs, q2, eL, rfl⟩))
        · rw [if_neg htemp] at h
          by_cases hpowr : ty = tagPOWR
          · rw [if_pos hpowr] at h
            obtain ⟨pr, eL, h⟩ := exBind_ok h
            obtain ⟨recs, pr2⟩ := pr
            obtain ⟨q2, nr⟩ := pr2
            cases h
            exact Or.inr (Or.inr (Or.inr (Or.inl
              ⟨hnum, hlen, hfreq, htemp, hpowr, recs, q2, nr, eL, rfl⟩)))
          · rw [if_neg hpowr] at h
            cases h
            exact Or.inr (Or.inr (Or.inr (Or.inr ⟨hnum, hlen, hfreq, htemp, hpowr, rfl⟩)))

set_option maxRecDepth 2000 in
lemma fake_occ_rsp_length : fake_occ_rsp.length = 4096 := by
  unfold fake_occ_rsp
  rw [List.length_append, List.length_replicate]
  decide

lemma fakeBadMarker_length : fakeBadMarker.length = 4096 := by
  unfold fakeBadMarker
  rw [List.length_set]
  exact fake_occ_rsp_length

/-! The claims. -/

/-- Claim C1 (code evidence): the spec requires that decode never read a
byte at an offset at or past the end of the buffer — a buffer shorter
than the 45-byte fixed header must fail with TooShort before any header
field is read, and a block descriptor or sensor record extending past
the end must fail with TruncatedBlockHeader or TruncatedSensorRecord.
The C routine takes no length parameter and performs no bounds check of
any kind: on a 44-byte buffer, on a frame cut one byte into a block
descriptor, and on a frame cut one byte into a sensor record, it reads
out of bounds (`PErr.oob`) instead of returning any error value. -/
theorem c1_reads_out_of_bounds :
    parse_occ_response c1Short44 zeroResponse = .error .oob ∧
    parse_occ_response c1CutDescriptor zeroResponse = .error .oob ∧
    parse_occ_response c1CutRecord zeroResponse = .error .oob := by
  refine ⟨by rfl, by rfl, by rfl⟩

/-- Claim C2 (confirmed): whenever the per-block parse succeeds on a
recognized block (the dispatch classes temp, freq and powr each force
record_count ≥ 1 and stride ≥ 1), record `s` is decoded from the byte
window starting at the block body offset plus `s` times the stride, with
fields read as big-endian unsigned integers from the start of that
window — TEMP/FREQ: 16-bit id at +0 and 16-bit value at +2; POWR:
16-bit id at +0, 32-bit update tag at +2, 32-bit accumulator at +6 and
16-bit value at +10 — and the cursor after the block is the body offset
plus record_count times stride: it advances by exactly the stride per
record, not by the logical size of the record. -/
theorem c2_stride_window_layout (d : List Nat) (p : Nat) (out : BlockOut)
    (h : parseOneBlock d p = .ok out) :
    (out.cls = TagClass.temp ∨ out.cls = TagClass.freq →
      1 ≤ out.blk.num_of_sensors ∧ 1 ≤ out.blk.sensor_length ∧
      out.next = p + 8 + out.blk.num_of_sensors * out.blk.sensor_length ∧
      ∃ recs, out.blk.sensor = some recs ∧ recs.length = out.blk.num_of_sensors ∧
        ∀ s, s < out.blk.num_of_sensors →
          recs.get? s = some ⟨be16At d (p + 8 + s * out.blk.sensor_length),
                              be16At d (p + 8 + s * out.blk.sensor_length + 2)⟩) ∧
    (out.cls = TagClass.powr →
      1 ≤ out.blk.num_of_sensors ∧ 1 ≤ out.blk.sensor_length ∧
      out.next = p + 8 + out.blk.num_of_sensors * out.blk.sensor_length ∧
      ∃ recs, out.blk.powr = some recs ∧ recs.length = out.blk.num_of_sensors ∧
        ∀ s, s < out.blk.num_of_sensors →
          recs.get? s = some ⟨be16At d (p + 8 + s * out.blk.sensor_length),
                              be32At d (p + 8 + s * out.blk.sensor_length + 2),
                              be32At d (p + 8 + s * out.blk.sensor_length + 6),
                              be16At d (p + 8 + s * out.blk.sensor_length + 10)⟩) := by
  obtain ⟨ty, r0, fmt, len, num, e0, e1, e2, e3, e4, hcase⟩ := parseOneBlock_inv h
  rcases hcase with ⟨hz, rfl⟩ | ⟨hnum, hlen, hty, recs, q2, eL, rfl⟩ |
    ⟨hnum, hlen, hty1, hty, recs, q2, eL, rfl⟩ |
    ⟨hnum, hlen, hty1, hty2, hty, recs, q2, nr, eL, rfl⟩ |
    ⟨hnum, hlen, hty1, hty2, hty3, rfl⟩
  · exact ⟨by intro hc; rcases hc with hc | hc <;> simp at hc,
           by intro hc; simp at hc⟩
  · refine ⟨?_, by intro hc; simp at hc⟩
    intro _
    obtain ⟨hq, hlength, hget⟩ := parseValueSensors_ok eL
    refine ⟨by simpa using Nat.one_le_iff_ne_zero.mpr hnum,
            by simpa using Nat.one_le_iff_ne_zero.mpr hlen, by simp [hq], recs, rfl, ?_, ?_⟩
    · simpa using hlength
    · intro s hs
      simp only at hs ⊢
      rw [hget s hs]
      rw [← val16_byteAt d (p + 8 + s * len), ← val16_byteAt d (p + 8 + s * len + 2)]
  · refine ⟨?_, by intro hc; simp at hc⟩
    intro _
    obtain ⟨hq, hlength, hget⟩ := parseValueSensors_ok eL
    refine ⟨by simpa using Nat.one_le_iff_ne_zero.mpr hnum,
            by simpa using Nat.one_le_iff_ne_zero.mpr hlen, by simp [hq], recs, rfl, ?_, ?_⟩
    · simpa using hlength
    · intro s hs
      simp only at hs ⊢
      rw [hget s hs]
      rw [← val16_byteAt d (p + 8 + s * len), ← val16_byteAt d (p + 8 + s * len + 2)]
  · refine ⟨by intro hc; rcases hc with hc | hc <;> simp at hc, ?_⟩
    intro _
    obtain ⟨hq, hlength, hnr, hget⟩ := parsePowrSensors_ok eL
    refine ⟨by simpa using Nat.one_le_iff_ne_zero.mpr hnum,
            by simpa using Nat.one_le_iff_ne_zero.mpr hlen, by simp [hq], recs, rfl, ?_, ?_⟩
    · simpa using hlength
    · intro s hs
      simp only at hs ⊢
      rw [hget s hs]
      rw [← val16_byteAt d (p + 8 + s * len), ← val16_byteAt d (p + 8 + s * len + 10),
          ← val32_byteAt d (p + 8 + s * len + 2), ← val32_byteAt d (p + 8 + s * len + 6)]
  · exact ⟨by intro hc; rcases hc with hc | hc <;> simp at hc,
           by intro hc; simp at hc⟩

/-- Witness for claim C2: the theorem applied to a concrete standalone
TEMP block with two records of stride 4. -/
theorem c2_witness :
    parseOneBlock c2TempBuf 0 = .ok c2TempOut ∧
    (1 ≤ c2TempOut.blk.num_of_sensors ∧ 1 ≤ c2TempOut.blk.sensor_length ∧
     c2TempOut.next = 0 + 8 + c2TempOut.blk.num_of_sensors * c2TempOut.blk.sensor_length ∧
     ∃ recs, c2TempOut.blk.sensor = some recs ∧
       recs.length = c2TempOut.blk.num_of_sensors ∧
       ∀ s, s < c2TempOut.blk.num_of_sensors →
         recs.get? s = some ⟨be16At c2TempBuf (0 + 8 + s * c2TempOut.blk.sensor_length),
                             be16At c2TempBuf (0 + 8 + s * c2TempOut.blk.sensor_length + 2)⟩) := by
  have h := c2_stride_window_layout c2TempBuf 0 c2TempOut (by decide)
  exact ⟨by decide, h.1 (Or.inl (by decide))⟩

/-- Claim C3 (code evidence): the spec says an unrecognized tag makes
decode skip record_count times stride body bytes and resume at the next
descriptor, after which subsequent blocks decode normally. The C code
merely continues after the 8-byte descriptor: in `c3Frame` an
unrecognized FOOX block with a 4-byte body is followed by a valid TEMP
block at offset 57, yet the second descriptor is read at offset 53 —
inside the FOOX body — so the second recorded block carries the garbage
tag [9, 9, 9, 9] and no TEMP record is decoded, while decode still
returns 0 and treats the FOOX block itself as empty and non-fatal. -/
theorem c3_unrecognized_tag_desync :
    (parse_occ_response c3Frame zeroResponse).map
      (fun r => (r.ret, r.err,
        r.o.data.blocks.map (fun l => l.map (fun b => (b.sensor_type, b.sensor, b.powr))))) =
    .ok (0, none, some [([70, 79, 79, 88], none, none), ([9, 9, 9, 9], none, none)]) := by
  rfl

/-- Claim C4 (code evidence): the spec requires that a failed decode
leave no partial mutation visible and release every resource allocated
by the failing call. The C code (a) writes all header fields into the
response struct of the caller before validating the marker — on the
marker-corrupted sample frame it returns -1 with `sequence_num` already
overwritten to 0x69 although it started at 0 — and (b) in
`deinit_occ_resp_buf` guards each `kfree` with the inverted test
`if (!blocks[b].sensor)`, so after a successful decode of the sample
frame the blocks array is freed but `kfree` is never invoked on the two
allocated sensor arrays (it is invoked only on the NULL pointers of
blocks 2 and 3), as the first block really holds an allocated array. -/
theorem c4_partial_state_and_leak :
    (parse_occ_response fakeBadMarker zeroResponse).map
      (fun r => (r.ret, r.err, r.o.sequence_num)) =
      .ok (-1, some CErr.sensorNotFound, 0x69) ∧
    zeroResponse.sequence_num = 0 ∧
    fakeParse.map (fun r =>
        ((deinit_occ_resp_buf r.o).blocksFreed,
         (deinit_occ_resp_buf r.o).sensorKfreeCalled,
         (deinit_occ_resp_buf r.o).powrKfreeCalled,
         (blockOf r 0).map (fun b => b.sensor.isSome))) =
      .ok (true, [false, false, true, true], [true, true, true, true], some true) := by
  refine ⟨by decide, by rfl, by decide⟩

/-- Claim C5 (confirmed): whenever the per-block parse runs the POWR
branch (recognized POWR tag with record_count ≥ 1 and nonzero stride),
only the `powr` array is allocated, the `sensor` pointer stays NULL, and
the per-record debug printk performs one read through that NULL `sensor`
pointer per record — hence at least one for any non-empty POWR block. -/
theorem c5_powr_null_sensor_read (d : List Nat) (p : Nat) (out : BlockOut)
    (h : parseOneBlock d p = .ok out) (hc : out.cls = TagClass.powr) :
    out.blk.sensor = none ∧ (∃ recs, out.blk.powr = some recs) ∧
    out.nullReads = out.blk.num_of_sensors ∧ 1 ≤ out.nullReads := by
  obtain ⟨ty, r0, fmt, len, num, e0, e1, e2, e3, e4, hcase⟩ := parseOneBlock_inv h
  rcases hcase with ⟨hz, rfl⟩ | ⟨hnum, hlen, hty, recs, q2, eL, rfl⟩ |
    ⟨hnum, hlen, hty1, hty, recs, q2, eL, rfl⟩ |
    ⟨hnum, hlen, hty1, hty2, hty, recs, q2, nr, eL, rfl⟩ |
    ⟨hnum, hlen, hty1, hty2, hty3, rfl⟩
  · simp at hc
  · simp at hc
  · simp at hc
  · obtain ⟨hq, hlength, hnr, hget⟩ := parsePowrSensors_ok eL
    exact ⟨rfl, ⟨recs, rfl⟩, by simpa using hnr, by simp [hnr]; omega⟩
  · simp at hc

/-- Witness for claim C5: the theorem applied to a concrete standalone
POWR block with one record of stride 12. -/
theorem c5_witness :
    parseOneBlock c5PowrBuf 0 = .ok c5PowrOut ∧ c5PowrOut.cls = TagClass.powr ∧
    (c5PowrOut.blk.sensor = none ∧ (∃ recs, c5PowrOut.blk.powr = some recs) ∧
     c5PowrOut.nullReads = c5PowrOut.blk.num_of_sensors ∧ 1 ≤ c5PowrOut.nullReads) := by
  have h := c5_powr_null_sensor_read c5PowrBuf 0 c5PowrOut (by decide) (by decide)
  exact ⟨by decide, by decide, h⟩

/-- Claim C6 (code evidence): the spec requires out-of-range per-index
sensor lookups to return an empty result instead of an unchecked read.
The accessors `show_occ_temp` and `show_occ_temp_label` dereference
`blocks[temp_block_id].sensor[n - 1]` with no range or NULL check: on a
valid frame whose TEMP block holds a single record, index n = 1 yields
the record, and index n = 2 (sysfs attribute temp2_input) makes the C
code read past the end of the one-element array — the `none` value of
`show_occ_temp_access` denotes that invalid access, not a graceful
empty result. -/
theorem c6_unchecked_sensor_index :
    (parse_occ_response c6Frame zeroResponse).map
      (fun r => (r.ret, show_occ_temp_access r.o 1, show_occ_temp_access r.o 2)) =
    .ok (0, some ⟨42, 7⟩, none) := by
  rfl

/-- Claim C7 (confirmed): for every buffer of at least 45 bytes whose six
bytes at offset 37 differ from "SENSOR", `parse_occ_response` fails with
the frame-marker error (return -1, printk "SENSOR not found"), performs
no block parsing and allocates nothing: the `blocks` field of the caller
struct is left exactly as it was. -/
theorem c7_bad_marker_rejected (d : List Nat) (o0 : OccResponseT)
    (h45 : 45 ≤ d.length)
    (hm : [byteAt d 37, byteAt d 38, byteAt d 39, byteAt d 40, byteAt d 41, byteAt d 42] ≠
      markerSENSOR) :
    ∃ r, parse_occ_response d o0 = .ok r ∧ r.ret = -1 ∧
      r.err = some CErr.sensorNotFound ∧ r.allocs = 0 ∧
      r.o.data.blocks = o0.data.blocks := by
  have hcstr : cstrAt d 37 6 ≠ markerSENSOR := fun h => hm ((cstrAt_marker_iff d).mp h)
  unfold parse_occ_response
  simp (disch := omega) only [readByte_ok, readCStr_ok_of_le, okBind]
  rw [if_pos hcstr]
  exact ⟨_, rfl, rfl, rfl, rfl, rfl⟩

/-- Witness for claim C7: the theorem applied to the sample frame with a
corrupted marker byte. -/
theorem c7_witness :
    45 ≤ fakeBadMarker.length ∧
    [byteAt fakeBadMarker 37, byteAt fakeBadMarker 38, byteAt fakeBadMarker 39,
     byteAt fakeBadMarker 40, byteAt fakeBadMarker 41, byteAt fakeBadMarker 42] ≠
      markerSENSOR ∧
    (∃ r, parse_occ_response fakeBadMarker zeroResponse = .ok r ∧ r.ret = -1 ∧
      r.err = some CErr.sensorNotFound ∧ r.allocs = 0 ∧
      r.o.data.blocks = zeroResponse.data.blocks) := by
  refine ⟨by rw [fakeBadMarker_length]; norm_num, by decide, ?_⟩
  exact c7_bad_marker_rejected fakeBadMarker zeroResponse
    (by rw [fakeBadMarker_length]; norm_num) (by decide)

/-- Claim C8 (confirmed): a block whose descriptor declares
record_count = 0 or stride = 0 consumes exactly its 8 descriptor bytes:
the per-block parse returns an empty block carrying the declared tag and
descriptor fields with no records and cursor p + 8, and the block loop
then continues with the next descriptor at p + 8, leaving the block-id
fields and all accumulated state unchanged — the following block decodes
from the correct offsets, with no desynchronization. -/
theorem c8_empty_block_descriptor_only (d : List Nat) (p : Nat)
    (hlen : p + 8 ≤ d.length)
    (hz : byteAt d (p + 7) = 0 ∨ byteAt d (p + 6) = 0) :
    parseOneBlock d p = .ok ⟨⟨cstrAt d p 4, byteAt d (p + 4), byteAt d (p + 5),
        byteAt d (p + 6), byteAt d (p + 7), none, none⟩, p + 8, .empty, 0, 0⟩ ∧
    ∀ (n : Nat) (st : LoopSt), st.dnum = p →
      parseBlocksLoop d (n + 1) st = parseBlocksLoop d n
        ⟨p + 8, st.b + 1, st.temp_block_id, st.freq_block_id, st.power_block_id,
         st.nullReads, st.allocs,
         st.blks ++ [⟨cstrAt d p 4, byteAt d (p + 4), byteAt d (p + 5), byteAt d (p + 6),
                      byteAt d (p + 7), none, none⟩]⟩ := by
  have h1 : parseOneBlock d p = .ok ⟨⟨cstrAt d p 4, byteAt d (p + 4), byteAt d (p + 5),
      byteAt d (p + 6), byteAt d (p + 7), none, none⟩, p + 8, .empty, 0, 0⟩ := by
    unfold parseOneBlock
    simp (disch := omega) only [readByte_ok, readCStr_ok_of_le, okBind]
    rcases hz with hz | hz
    · rw [if_pos hz]
    · by_cases hnum : byteAt d (p + 7) = 0
      · rw [if_pos hnum]
      · rw [if_neg hnum, if_pos hz]
  refine ⟨h1, ?_⟩
  intro n st hst
  rw [parseBlocksLoop_succ, hst, h1]
  simp only [okBind]
  simp

/-- Witness for claim C8: the theorem applied to the empty middle block
of a frame holding a populated TEMP block, an empty TEMP block and a
second populated TEMP block. -/
theorem c8_witness :
    (57 + 8 ≤ c8Frame.length ∧ byteAt c8Frame (57 + 7) = 0) ∧
    parseOneBlock c8Frame 57 = .ok ⟨⟨cstrAt c8Frame 57 4, byteAt c8Frame (57 + 4),
      byteAt c8Frame (57 + 5), byteAt c8Frame (57 + 6), byteAt c8Frame (57 + 7),
      none, none⟩, 57 + 8, .empty, 0, 0⟩ ∧
    parseBlocksLoop c8Frame (1 + 1) c8St = parseBlocksLoop c8Frame 1
      ⟨57 + 8, c8St.b + 1, c8St.temp_block_id, c8St.freq_block_id, c8St.power_block_id,
       c8St.nullReads, c8St.allocs,
       c8St.blks ++ [⟨cstrAt c8Frame 57 4, byteAt c8Frame (57 + 4), byteAt c8Frame (57 + 5),
                      byteAt c8Frame (57 + 6), byteAt c8Frame (57 + 7), none, none⟩]⟩ := by
  have h := c8_empty_block_descriptor_only c8Frame 57 (by decide) (Or.inl (by decide))
  exact ⟨⟨by decide, by decide⟩, h.1, h.2 1 c8St rfl⟩

/-- Claim C9 (confirmed): the declared data length is the big-endian
16-bit integer assembled from bytes 3 and 4 (256 times byte 3 plus
byte 4), and whenever that value exceeds the 4096-byte cap `occ_get_all`
rejects the frame (printk error, return -1) before `parse_occ_response`
ever runs — no sensor block is parsed. -/
theorem c9_declared_length_cap (d : List Nat) (o0 : OccResponseT) (h5 : 5 ≤ d.length) :
    get_occdata_length d = .ok (be16At d 3) ∧
    (4096 < be16At d 3 → occ_get_all d o0 = .ok GetAllOut.lengthTooBig) := by
  have h1 : get_occdata_length d = .ok (be16At d 3) := by
    unfold get_occdata_length
    simp (disch := omega) only [readByte_ok, okBind]
    rw [← val16_byteAt d 3]
  refine ⟨h1, ?_⟩
  intro hgt
  unfold occ_get_all
  rw [h1]
  simp only [okBind]
  rw [if_pos hgt]

/-- Witness for claim C9: the theorem applied to a buffer declaring
length 0xffff = 65535, which exceeds the 4096-byte cap. -/
theorem c9_witness :
    5 ≤ c9Buf.length ∧ get_occdata_length c9Buf = .ok (be16At c9Buf 3) ∧
    be16At c9Buf 3 = 65535 ∧ 4096 < be16At c9Buf 3 ∧
    occ_get_all c9Buf zeroResponse = .ok GetAllOut.lengthTooBig := by
  have h := c9_declared_length_cap c9Buf zeroResponse (by decide)
  exact ⟨by decide, h.1, by decide, by decide, h.2 (by decide)⟩

/-- Claim C10 (counterexample): the claim describes the hardcoded sample
frame as having block_count = 3 with a POWR block of one record, and
asserts that the decoded power block has exactly one record. In fact
byte 43 of `fake_occ_rsp` is 4, and the POWR-tagged block (index 2)
declares zero records, so no `powr` array is allocated and the POWR
branch — which is what records the power block index — never runs. -/
theorem c10_counterexample :
    fakeParse.map (fun r => r.o.data.num_of_sensor_blocks) = .ok 4 ∧ (4 : Nat) ≠ 3 ∧
    fakeParse.map (fun r => ((blockOf r 2).bind (fun b => b.powr)).map List.length) =
      .ok none ∧ (none : Option Nat) ≠ some 1 ∧
    fakeParse.map (fun r => (blockOf r 2).map (fun b => (b.sensor_type, b.num_of_sensors))) =
      .ok (some (tagPOWR, 0)) := by
  refine ⟨by rfl, by decide, by rfl, by decide, by rfl⟩

/-- Claim C10 (amended): decoding the hardcoded sample frame succeeds
(return 0) with block_count = 4: a TEMP block of 10 records at stride 4
whose first record has sensor id 0x006a, a FREQ block of 10 records at
stride 4, an empty POWR block (0 records declared, stride 12) and an
unrecognized CAPS block; the temperature block index is 0 (the first
block), the frequency block index is 1, and the power block index is
never written — it keeps its initial value. -/
theorem c10_amended_sample_frame :
    fakeParse.map (fun r => (r.ret, r.o.data.num_of_sensor_blocks, r.o.temp_block_id,
      (blockOf r 0).map (fun b => (b.sensor_type, b.num_of_sensors, b.sensor_length)),
      ((blockOf r 0).bind (fun b => b.sensor)).map List.length,
      ((blockOf r 0).bind (fun b => b.sensor)).bind (fun l => l.get? 0),
      (blockOf r 1).map (fun b => (b.sensor_type, b.num_of_sensors, b.sensor_length)),
      (blockOf r 2).map (fun b => (b.sensor_type, b.num_of_sensors, b.sensor, b.powr)),
      (blockOf r 3).map (fun b => (b.sensor_type, b.num_of_sensors, b.sensor, b.powr)),
      r.o.freq_block_id, r.o.power_block_id)) =
    .ok (0, 4, 0, some (tagTEMP, 10, 4), some 10, some ⟨0x6a, 0⟩, some (tagFREQ, 10, 4),
         some (tagPOWR, 0, none, none), some ([0x43, 0x41, 0x50, 0x53], 1, none, none),
         1, 0) := by
  rfl

end OccI2c
